import Mathlib

/-!
Verification of the fermata recording-pipeline core (setka-monorepo).

The Rust sources embedded here:
- `src/packages/fermata/src-tauri/src/services/status_detector.rs`
- `src/packages/fermata/src-tauri/src/models/recording.rs`
- `src/packages/fermata/src-tauri/src/services/file_scanner.rs`
- `src/packages/fermata/src-tauri/src/commands/operations.rs`
- `src/packages/fermata/src-tauri/src/services/process_runner.rs`

The filesystem is shallowly embedded: a `RecordingDir` records exactly the
facts the Rust code queries about a recording directory (existence and
directory-ness of the marker subdirectories, their entry listings, and the
readable contents of `error.log` and `.failed`).  External process
invocations are embedded as oracles (`CinemonCalls`) recording the outcome
each call would produce.
-/

namespace Fermata

/-! ### String helpers mirroring the Rust standard library

These re-implement, over `List Char`, the `str`/`Path` operations the Rust
code uses (`trim`, `lines`, `to_lowercase`, `Path::extension`), so that all
definitions reduce in the kernel.  `trim`/`to_lowercase` are modelled on the
ASCII fragment, which covers every string the program compares against. -/

/-- Rust `char::is_whitespace`, restricted to the ASCII whitespace the
program ever encounters. -/
def isRustWhitespace (c : Char) : Bool :=
  c = ' ' ∨ c = '\t' ∨ c = '\n' ∨ c = '\r'

/-- Rust `str::trim` on the character list. -/
def trimChars (l : List Char) : List Char :=
  ((l.dropWhile isRustWhitespace).reverse.dropWhile isRustWhitespace).reverse

/-- Rust `str::trim`. -/
def rustTrim (s : String) : String :=
  String.mk (trimChars s.data)

/-- Rust `str::to_lowercase` (ASCII fragment). -/
def rustToLower (s : String) : String :=
  String.mk (s.data.map Char.toLower)

/-- Split a character list at each newline character; the accumulator holds
the current line reversed. -/
def splitLinesAux : List Char → List Char → List (List Char)
  | [], acc => [acc.reverse]
  | c :: cs, acc =>
    if c = '\n' then acc.reverse :: splitLinesAux cs []
    else splitLinesAux cs (c :: acc)

/-- Drop one carriage return at the end of a line (Rust `lines` splits at
`\r\n` as well as `\n`). -/
def stripTrailingCR (l : List Char) : List Char :=
  match l.getLast? with
  | some c => if c = '\r' then l.dropLast else l
  | none => l

/-- Rust `str::lines`: split at `\n` (stripping a preceding `\r`); a final
line terminator produces no trailing empty line. -/
def rustLines (s : String) : List String :=
  let parts := splitLinesAux s.data []
  let init := parts.dropLast.map (fun l => String.mk (stripTrailingCR l))
  match parts.getLast? with
  | some [] => init
  | some l => init ++ [String.mk l]
  | none => init

/-- Split a file name before its last dot, when it has one:
`some (stem, ext)`. -/
def lastDotSplit : List Char → Option (List Char × List Char)
  | [] => none
  | c :: cs =>
    match lastDotSplit cs with
    | some (pre, post) => some (c :: pre, post)
    | none => if c = '.' then some ([], cs) else none

/-- Rust `Path::extension` on a file name: the part after the last dot,
absent when there is no dot or when the name starts with its only dot
(`.gitignore` has no extension). -/
def rustExtension (fileName : String) : Option String :=
  match lastDotSplit fileName.data with
  | some (pre, post) => if pre.isEmpty then none else some (String.mk post)
  | none => none

/-! ### Data model (`models/recording.rs`) -/

/-- `RecordingStatus` from `models/recording.rs`. -/
inductive RecordingStatus where
  | Recorded
  | Extracted
  | Analyzed
  | SetupRendered
  | Rendered
  | Uploaded
  | Failed (reason : String)
  deriving DecidableEq

/-- `NextStep` from `models/recording.rs`. -/
inductive NextStep where
  | Extract
  | Analyze
  | SetupRender
  | Render
  | Upload
  | Retry
  deriving DecidableEq

/-- The facts the Rust code queries about one subdirectory of a recording:
`path.exists()`, `path.is_dir()`, and the file names `read_dir` yields
(`none` when `read_dir` fails). -/
structure DirNode where
  present : Bool
  isDir : Bool
  entries : Option (List String)
  deriving DecidableEq

/-- A subdirectory that is absent from the filesystem. -/
def DirNode.absent : DirNode :=
  { present := false, isDir := false, entries := none }

/-- The filesystem facts about a recording directory consulted by
`status_detector.rs` and the retry probe in `operations.rs`.
`errorLog`/`failedMarker`: `none` = file absent, `some none` = file exists
but `read_to_string` fails, `some (some c)` = file exists with content `c`.
`uploadResults` is `uploads/upload_results.json` existence. -/
structure RecordingDir where
  errorLog : Option (Option String)
  failedMarker : Option (Option String)
  extracted : DirNode
  analysis : DirNode
  blender : DirNode
  render : DirNode
  uploads : DirNode
  uploadResults : Bool
  deriving DecidableEq

/-- `Recording` from `models/recording.rs`, with `path` embedded as the
directory contents found at that path (the only use the embedded functions
make of it). -/
structure Recording where
  name : String
  path : RecordingDir
  status : RecordingStatus
  deriving DecidableEq

/-! ### StatusDetector (`services/status_detector.rs`) -/

/-- `StatusDetector::has_extracted_files`: `extracted/` exists and is a
directory. -/
def has_extracted_files (d : RecordingDir) : Bool :=
  d.extracted.present && d.extracted.isDir

/-- `StatusDetector::has_analysis_files`: `analysis/` is a directory
containing at least one `.json` entry. -/
def has_analysis_files (d : RecordingDir) : Bool :=
  if !d.analysis.present || !d.analysis.isDir then false
  else
    match d.analysis.entries with
    | some es => es.any (fun n => rustExtension n = some "json")
    | none => false

/-- `StatusDetector::has_render_setup`: `blender/` is a directory containing
at least one `.blend` entry. -/
def has_render_setup (d : RecordingDir) : Bool :=
  if !d.blender.present || !d.blender.isDir then false
  else
    match d.blender.entries with
    | some es => es.any (fun n => rustExtension n = some "blend")
    | none => false

/-- `StatusDetector::has_rendered_video`: `blender/render/` is a directory
containing an entry with extension `mp4`, `mkv` or `avi`. -/
def has_rendered_video (d : RecordingDir) : Bool :=
  if !d.render.present || !d.render.isDir then false
  else
    match d.render.entries with
    | some es =>
      es.any (fun n =>
        rustExtension n = some "mp4" || rustExtension n = some "mkv" ||
          rustExtension n = some "avi")
    | none => false

/-- `StatusDetector::has_uploads`: `uploads/` is a directory and
`uploads/upload_results.json` exists. -/
def has_uploads (d : RecordingDir) : Bool :=
  if !d.uploads.present || !d.uploads.isDir then false
  else d.uploadResults

/-- `StatusDetector::check_for_errors`: a non-empty `error.log` yields its
last line (`lines().last()`, `"Unknown error"` when there are no lines);
otherwise a `.failed` marker yields its trimmed content when readable and
`"Process failed"` when the read fails. -/
def check_for_errors (d : RecordingDir) : Option String :=
  let fromFailedMarker : Option String :=
    match d.failedMarker with
    | some (some content) => some (rustTrim content)
    | some none => some "Process failed"
    | none => none
  match d.errorLog with
  | some (some content) =>
    if rustTrim content ≠ "" then
      some ((rustLines content).getLast?.getD "Unknown error")
    else fromFailedMarker
  | _ => fromFailedMarker

/-- `StatusDetector::detect_status`: error markers first, then completion
markers from most advanced to least, defaulting to `Recorded`. -/
def detect_status (d : RecordingDir) : RecordingStatus :=
  match check_for_errors d with
  | some e => RecordingStatus.Failed e
  | none =>
    if has_uploads d then RecordingStatus.Uploaded
    else if has_rendered_video d then RecordingStatus.Rendered
    else if has_render_setup d then RecordingStatus.SetupRendered
    else if has_analysis_files d then RecordingStatus.Analyzed
    else if has_extracted_files d then RecordingStatus.Extracted
    else RecordingStatus.Recorded

/-! ### Spec-side definitions (for refinement statements only) -/

/-- Return the result of the first check in the list that matches, or the
default.  Spec-side device for stating the precedence claim. -/
def firstMatch : List (Bool × RecordingStatus) → RecordingStatus → RecordingStatus
  | [], dflt => dflt
  | (b, s) :: rest, dflt => if b then s else firstMatch rest dflt

/-- Modelled from the spec's words: the seven checks of §4.1 in their fixed
precedence order, first match wins, defaulting to `Recorded`. -/
def detect_status_spec (d : RecordingDir) : RecordingStatus :=
  firstMatch
    [((check_for_errors d).isSome,
        RecordingStatus.Failed ((check_for_errors d).getD "")),
     (has_uploads d, RecordingStatus.Uploaded),
     (has_rendered_video d, RecordingStatus.Rendered),
     (has_render_setup d, RecordingStatus.SetupRendered),
     (has_analysis_files d, RecordingStatus.Analyzed),
     (has_extracted_files d, RecordingStatus.Extracted)]
    RecordingStatus.Recorded

/-- Modelled from the spec's words: the last non-empty line of a log
file.  Used only to express what the spec predicts for claim C3. -/
def last_nonempty_line (s : String) : Option String :=
  ((rustLines s).filter (fun l => l ≠ "")).getLast?

/-- All probes of `detect_status` find nothing: the state of a recording
path that does not exist (or is a plain file), whose children are all
absent. -/
def dirAbsent (d : RecordingDir) : Prop :=
  d.errorLog = none ∧ d.failedMarker = none ∧
  d.extracted = DirNode.absent ∧ d.analysis = DirNode.absent ∧
  d.blender = DirNode.absent ∧ d.render = DirNode.absent ∧
  d.uploads = DirNode.absent ∧ d.uploadResults = false

/-! ### PipelineModel (`models/recording.rs`) -/

/-- `Recording::get_next_step`: the next pipeline step for the recording's
current status. -/
def get_next_step (r : Recording) : Option NextStep :=
  match r.status with
  | RecordingStatus.Recorded => some NextStep.Extract
  | RecordingStatus.Extracted => some NextStep.Analyze
  | RecordingStatus.Analyzed => some NextStep.SetupRender
  | RecordingStatus.SetupRendered => some NextStep.Render
  | RecordingStatus.Rendered => some NextStep.Upload
  | RecordingStatus.Uploaded => none
  | RecordingStatus.Failed _ => some NextStep.Retry

/-- `matches!(status, Recorded | Failed(_))` and friends, one per arm of
`Recording::can_run_step`. -/
def statusIsRecordedOrFailed : RecordingStatus → Bool
  | RecordingStatus.Recorded => true
  | RecordingStatus.Failed _ => true
  | _ => false

def statusIsExtractedOrFailed : RecordingStatus → Bool
  | RecordingStatus.Extracted => true
  | RecordingStatus.Failed _ => true
  | _ => false

def statusIsAnalyzedOrFailed : RecordingStatus → Bool
  | RecordingStatus.Analyzed => true
  | RecordingStatus.Failed _ => true
  | _ => false

def statusIsSetupRenderedOrFailed : RecordingStatus → Bool
  | RecordingStatus.SetupRendered => true
  | RecordingStatus.Failed _ => true
  | _ => false

def statusIsRenderedOrFailed : RecordingStatus → Bool
  | RecordingStatus.Rendered => true
  | RecordingStatus.Failed _ => true
  | _ => false

def statusIsFailed : RecordingStatus → Bool
  | RecordingStatus.Failed _ => true
  | _ => false

/-- `Recording::can_run_step`: case-insensitive step name against the
prerequisite status, with `Failed` allowed everywhere; unknown names are
rejected. -/
def can_run_step (r : Recording) (step : String) : Bool :=
  let s := rustToLower step
  if s = "extract" then statusIsRecordedOrFailed r.status
  else if s = "analyze" then statusIsExtractedOrFailed r.status
  else if s = "setup_render" || s = "setup-render" then
    statusIsAnalyzedOrFailed r.status
  else if s = "render" then statusIsSetupRenderedOrFailed r.status
  else if s = "upload" then statusIsRenderedOrFailed r.status
  else if s = "retry" then statusIsFailed r.status
  else false

/-! ### FileScanner (`services/file_scanner.rs`) -/

/-- The per-recording predicate of `FileScanner::filter_by_status`:
case-insensitive match of the label against the status discriminant, with
anything unrecognized passing everything through. -/
def filterStatusPred (statusFilter : String) (st : RecordingStatus) : Bool :=
  let s := rustToLower statusFilter
  if s = "recorded" then
    match st with | RecordingStatus.Recorded => true | _ => false
  else if s = "extracted" then
    match st with | RecordingStatus.Extracted => true | _ => false
  else if s = "analyzed" then
    match st with | RecordingStatus.Analyzed => true | _ => false
  else if s = "rendered" then
    match st with | RecordingStatus.Rendered => true | _ => false
  else if s = "uploaded" then
    match st with | RecordingStatus.Uploaded => true | _ => false
  else if s = "failed" then statusIsFailed st
  else true

/-- `FileScanner::filter_by_status`. -/
def filter_by_status (recordings : List Recording) (statusFilter : String) :
    List Recording :=
  recordings.filter (fun r => filterStatusPred statusFilter r.status)

/-- `FileScanner::get_recordings_needing_attention`: keeps exactly the
statuses matched by
`matches!(status, Failed(_) | Recorded | Extracted | Analyzed | Rendered)`. -/
def get_recordings_needing_attention (recordings : List Recording) :
    List Recording :=
  recordings.filter (fun r =>
    match r.status with
    | RecordingStatus.Failed _ => true
    | RecordingStatus.Recorded => true
    | RecordingStatus.Extracted => true
    | RecordingStatus.Analyzed => true
    | RecordingStatus.Rendered => true
    | _ => false)

/-! ### Operations (`commands/operations.rs`) -/

/-- The distinct `return Err(...)` sites of `run_specific_step` before any
process is spawned. -/
inductive StepError where
  | cannotRun (step : String)
  | retryOnlyForFailed
  | cannotDetermineRetry
  | unknownStep (step : String)
  deriving DecidableEq

/-- The retry arm of `run_specific_step`: probe the recording directory,
first match wins, to decide which concrete step a `Failed` recording
retries.  The probes are bare `exists()` calls. -/
def determine_retry_step (d : RecordingDir) : Except StepError NextStep :=
  if d.render.present then Except.ok NextStep.Render
  else if d.blender.present then Except.ok NextStep.SetupRender
  else if d.analysis.present then Except.ok NextStep.SetupRender
  else if d.extracted.present then Except.ok NextStep.Analyze
  else Except.error StepError.cannotDetermineRetry

/-- `run_specific_step`, cut at the point the resolved step would be
executed: validate with `can_run_step`, then dispatch on the lowered step
name; the result is the step handed to `execute_step` or the error returned
before any process is spawned. -/
def run_specific_step (r : Recording) (step : String) :
    Except StepError NextStep :=
  if !can_run_step r step then Except.error (StepError.cannotRun step)
  else
    let s := rustToLower step
    if s = "analyze" then Except.ok NextStep.Analyze
    else if s = "setup_render" || s = "setup-render" then
      Except.ok NextStep.SetupRender
    else if s = "render" then Except.ok NextStep.Render
    else if s = "upload" then Except.ok NextStep.Upload
    else if s = "retry" then
      match r.status with
      | RecordingStatus.Failed _ => determine_retry_step r.path
      | _ => Except.error StepError.retryOnlyForFailed
    else Except.error (StepError.unknownStep step)

instance {α β : Type} [DecidableEq α] [DecidableEq β] :
    DecidableEq (Except α β) := fun x y =>
  match x, y with
  | Except.error a, Except.error b =>
    if h : a = b then isTrue (by rw [h])
    else isFalse (fun hc => by cases hc; exact h rfl)
  | Except.ok a, Except.ok b =>
    if h : a = b then isTrue (by rw [h])
    else isFalse (fun hc => by cases hc; exact h rfl)
  | Except.error _, Except.ok _ => isFalse (fun hc => by cases hc)
  | Except.ok _, Except.error _ => isFalse (fun hc => by cases hc)

/-! ### ProcessRunner (`services/process_runner.rs`) -/

/-- `ProcessResult` from `services/process_runner.rs`. -/
structure ProcessResult where
  success : Bool
  stdout : String
  stderr : String
  exit_code : Option Int
  deriving DecidableEq

/-- Oracle for the external calls `run_cinemon_render` makes: the outcome
of the `cinemon-generate-config` invocation (`Except.error` = spawn/transport
failure propagated by `?`), whether the generated config file exists on disk
after it, and the outcome of the `cinemon-blend-setup` invocation. -/
structure CinemonCalls where
  generate : Except String ProcessResult
  configOnDisk : Bool
  blendSetup : Except String ProcessResult

/-- `ProcessRunner::run_cinemon_render`: run config generation; if it fails,
return its result unchanged; if the generated file
`animation_config_<preset>.yaml` is absent, return a synthetic failure
naming it; otherwise run the blend-setup call. -/
def run_cinemon_render (env : CinemonCalls) (recording_path preset : String) :
    Except String ProcessResult :=
  match env.generate with
  | Except.error e => Except.error e
  | Except.ok config_result =>
    if !config_result.success then Except.ok config_result
    else
      let config_filename := "animation_config_" ++ preset ++ ".yaml"
      let config_path := recording_path ++ "/" ++ config_filename
      if !env.configOnDisk then
        Except.ok
          { success := false, stdout := "",
            stderr := "Generated config file not found: " ++ config_path,
            exit_code := some 1 }
      else env.blendSetup

/-- Whether the control flow of `run_cinemon_render` reaches the second
`execute_command` (the blend-setup invocation): exactly the branch where
config generation succeeded and the generated file exists. -/
def cinemon_blend_setup_attempted (env : CinemonCalls) : Bool :=
  match env.generate with
  | Except.error _ => false
  | Except.ok config_result => config_result.success && env.configOnDisk

/-! ### Concrete sample inputs used by witnesses and counterexamples -/

/-- A recording directory with no markers at all. -/
def emptyDir : RecordingDir :=
  { errorLog := none, failedMarker := none,
    extracted := DirNode.absent, analysis := DirNode.absent,
    blender := DirNode.absent, render := DirNode.absent,
    uploads := DirNode.absent, uploadResults := false }

/-- A directory with both a non-empty `error.log` and a complete
`uploads/upload_results.json`. -/
def dBoth : RecordingDir :=
  { errorLog := some (some "boom"), failedMarker := none,
    extracted := DirNode.absent, analysis := DirNode.absent,
    blender := DirNode.absent, render := DirNode.absent,
    uploads := { present := true, isDir := true,
                 entries := some ["upload_results.json"] },
    uploadResults := true }

/-- A directory whose `error.log` ends in a blank line. -/
def dTrailing : RecordingDir :=
  { errorLog := some (some "disk full\n\n"), failedMarker := none,
    extracted := DirNode.absent, analysis := DirNode.absent,
    blender := DirNode.absent, render := DirNode.absent,
    uploads := DirNode.absent, uploadResults := false }

/-- A directory with an empty (but readable) `.failed` marker. -/
def dDotFailedEmpty : RecordingDir :=
  { errorLog := none, failedMarker := some (some ""),
    extracted := DirNode.absent, analysis := DirNode.absent,
    blender := DirNode.absent, render := DirNode.absent,
    uploads := DirNode.absent, uploadResults := false }

/-- A directory having both `analysis/` and `blender/render/`. -/
def dAnalysisRender : RecordingDir :=
  { errorLog := none, failedMarker := none,
    extracted := DirNode.absent,
    analysis := { present := true, isDir := true, entries := some [] },
    blender := { present := true, isDir := true, entries := some [] },
    render := { present := true, isDir := true, entries := some [] },
    uploads := DirNode.absent, uploadResults := false }

def recRecorded : Recording :=
  { name := "rec_recorded", path := emptyDir,
    status := RecordingStatus.Recorded }

def recExtracted : Recording :=
  { name := "rec_extracted", path := emptyDir,
    status := RecordingStatus.Extracted }

def recSetup : Recording :=
  { name := "rec_setup_rendered", path := emptyDir,
    status := RecordingStatus.SetupRendered }

def recFailed : Recording :=
  { name := "rec_failed", path := dAnalysisRender,
    status := RecordingStatus.Failed "boom" }

/-- The result of a failed config-generation call. -/
def genFailResult : ProcessResult :=
  { success := false, stdout := "", stderr := "config error",
    exit_code := some 1 }

/-- An oracle where the config-generation call reports failure. -/
def envGenFail : CinemonCalls :=
  { generate := Except.ok genFailResult, configOnDisk := true,
    blendSetup :=
      Except.ok { success := true, stdout := "", stderr := "",
                  exit_code := some 0 } }

/-! ### Helper lemmas -/

theorem can_run_step_extract (r : Recording) :
    can_run_step r "extract" = statusIsRecordedOrFailed r.status := rfl

theorem can_run_step_analyze (r : Recording) :
    can_run_step r "analyze" = statusIsExtractedOrFailed r.status := rfl

theorem can_run_step_setup_render (r : Recording) :
    can_run_step r "setup_render" = statusIsAnalyzedOrFailed r.status := rfl

theorem can_run_step_render (r : Recording) :
    can_run_step r "render" = statusIsSetupRenderedOrFailed r.status := rfl

theorem can_run_step_upload (r : Recording) :
    can_run_step r "upload" = statusIsRenderedOrFailed r.status := rfl

theorem can_run_step_retry (r : Recording) :
    can_run_step r "retry" = statusIsFailed r.status := rfl

theorem run_specific_step_retry_failed (n : String) (p : RecordingDir)
    (e : String) :
    run_specific_step { name := n, path := p,
                        status := RecordingStatus.Failed e } "retry" =
      determine_retry_step p := rfl

/-- `determine_retry_step` only resolves to `Render`, `SetupRender` or
`Analyze`, never `Extract`. -/
theorem determine_retry_step_ne_extract (d : RecordingDir) (st : NextStep)
    (h : determine_retry_step d = Except.ok st) : st ≠ NextStep.Extract := by
  unfold determine_retry_step at h
  split at h
  · cases h; simp
  · split at h
    · cases h; simp
    · split at h
      · cases h; simp
      · split at h
        · cases h; simp
        · cases h

/-- `run_specific_step` never resolves a request to the `Extract` step. -/
theorem run_specific_step_ne_ok_extract (r : Recording) (s : String) :
    run_specific_step r s ≠ Except.ok NextStep.Extract := by
  intro h
  unfold run_specific_step at h
  by_cases h0 : can_run_step r s = true
  case neg => simp [h0] at h
  case pos =>
  by_cases h1 : rustToLower s = "analyze"
  · simp [h0, h1] at h
  by_cases h2 : rustToLower s = "setup_render" ∨ rustToLower s = "setup-render"
  · simp [h0, h1, h2] at h
  by_cases h3 : rustToLower s = "render"
  · simp [h0, h1, h2, h3] at h
  by_cases h4 : rustToLower s = "upload"
  · simp [h0, h1, h2, h3, h4] at h
  by_cases h5 : rustToLower s = "retry"
  · simp [h0, h1, h2, h3, h4, h5] at h
    cases hst : r.status <;> simp [hst] at h
    exact determine_retry_step_ne_extract _ _ h rfl
  · simp [h0, h1, h2, h3, h4, h5] at h

/-! ### Claim C1 -/

/-- C1: `detect_status` applies the seven checks in the fixed precedence
order (error markers, then uploads, then rendered video, then blend setup,
then analysis json, then extracted, then the `Recorded` default) and returns
the first match; in particular a directory with both non-empty `error.log`
content and `uploads/upload_results.json` yields `Failed`, never
`Uploaded`. -/
theorem C1_detect_status_precedence (d : RecordingDir) :
    detect_status d = detect_status_spec d ∧
    (∀ c, d.errorLog = some (some c) → rustTrim c ≠ "" →
      has_uploads d = true →
      (∃ e, detect_status d = RecordingStatus.Failed e) ∧
        detect_status d ≠ RecordingStatus.Uploaded) := by
  constructor
  · cases h : check_for_errors d <;>
      simp [detect_status, detect_status_spec, firstMatch, h]
  · intro c hc htrim _
    have herr : (check_for_errors d).isSome := by
      unfold check_for_errors
      rw [hc]
      simp [htrim]
    cases he : check_for_errors d with
    | none => rw [he] at herr; simp at herr
    | some e =>
      refine ⟨⟨e, ?_⟩, ?_⟩ <;> simp [detect_status, he]

/-- Witness for C1 at a directory with both `error.log` content `"boom"`
and a complete uploads marker. -/
theorem C1_witness :
    (∃ e, detect_status dBoth = RecordingStatus.Failed e) ∧
      detect_status dBoth ≠ RecordingStatus.Uploaded :=
  (C1_detect_status_precedence dBoth).2 "boom" rfl (by decide) (by decide)

/-! ### Claim C2 -/

/-- C2: `get_next_step` maps each status to exactly the documented step:
`Recorded→Extract`, `Extracted→Analyze`, `Analyzed→SetupRender`,
`SetupRendered→Render`, `Rendered→Upload`, `Uploaded→none`, and
`Failed(reason)→Retry` for every reason. -/
theorem C2_next_step_table (r : Recording) :
    (r.status = RecordingStatus.Recorded →
      get_next_step r = some NextStep.Extract) ∧
    (r.status = RecordingStatus.Extracted →
      get_next_step r = some NextStep.Analyze) ∧
    (r.status = RecordingStatus.Analyzed →
      get_next_step r = some NextStep.SetupRender) ∧
    (r.status = RecordingStatus.SetupRendered →
      get_next_step r = some NextStep.Render) ∧
    (r.status = RecordingStatus.Rendered →
      get_next_step r = some NextStep.Upload) ∧
    (r.status = RecordingStatus.Uploaded → get_next_step r = none) ∧
    (∀ e, r.status = RecordingStatus.Failed e →
      get_next_step r = some NextStep.Retry) := by
  refine ⟨fun h => ?_, fun h => ?_, fun h => ?_, fun h => ?_, fun h => ?_,
    fun h => ?_, fun e h => ?_⟩ <;> simp [get_next_step, h]

/-- Witness for C2 at a `Recorded` recording. -/
theorem C2_witness : get_next_step recRecorded = some NextStep.Extract :=
  (C2_next_step_table recRecorded).1 rfl

/-! ### Claim C3 -/

/-- C3 counterexample: an `error.log` of `"disk full\n\n"` yields
`Failed("")` — the last line, not the last non-empty line `"disk full"` —
and an empty readable `.failed` marker yields `Failed("")`, not
`Failed("Process failed")`. -/
theorem C3_counterexample :
    detect_status dTrailing = RecordingStatus.Failed "" ∧
    last_nonempty_line "disk full\n\n" = some "disk full" ∧
    detect_status dTrailing ≠ RecordingStatus.Failed "disk full" ∧
    detect_status dDotFailedEmpty = RecordingStatus.Failed "" ∧
    detect_status dDotFailedEmpty ≠ RecordingStatus.Failed "Process failed" :=
  by decide

/-- The `error.log` probe finds no reason: the file is absent, unreadable,
or blank after trimming. -/
def errorLogNoReason (d : RecordingDir) : Prop :=
  d.errorLog = none ∨ d.errorLog = some none ∨
    ∃ c, d.errorLog = some (some c) ∧ rustTrim c = ""

/-- C3 amended: when `error.log` exists with non-blank content, the reason
is the LAST line of the log (possibly empty when the log ends in a blank
line); otherwise, when `.failed` exists, the reason is its trimmed content
whenever the file is readable — even when that content is empty — and the
fixed `"Process failed"` only when the read fails. -/
theorem C3_failure_reason_amended (d : RecordingDir) :
    (∀ c, d.errorLog = some (some c) → rustTrim c ≠ "" →
      detect_status d =
        RecordingStatus.Failed ((rustLines c).getLast?.getD "Unknown error")) ∧
    (errorLogNoReason d → ∀ c, d.failedMarker = some (some c) →
      detect_status d = RecordingStatus.Failed (rustTrim c)) ∧
    (errorLogNoReason d → d.failedMarker = some none →
      detect_status d = RecordingStatus.Failed "Process failed") := by
  refine ⟨fun c hc htrim => ?_, fun hlog c hm => ?_, fun hlog hm => ?_⟩
  · simp [detect_status, check_for_errors, hc, htrim]
  · rcases hlog with h | h | ⟨c2, h, htrim⟩
    · simp [detect_status, check_for_errors, h, hm]
    · simp [detect_status, check_for_errors, h, hm]
    · simp [detect_status, check_for_errors, h, hm, htrim]
  · rcases hlog with h | h | ⟨c2, h, htrim⟩
    · simp [detect_status, check_for_errors, h, hm]
    · simp [detect_status, check_for_errors, h, hm]
    · simp [detect_status, check_for_errors, h, hm, htrim]

/-- Witness for C3's amended claim at the two concrete directories of the
counterexample. -/
theorem C3_amended_witness :
    detect_status dTrailing =
      RecordingStatus.Failed
        ((rustLines "disk full\n\n").getLast?.getD "Unknown error") ∧
    detect_status dDotFailedEmpty = RecordingStatus.Failed (rustTrim "") :=
  ⟨(C3_failure_reason_amended dTrailing).1 "disk full\n\n" rfl (by decide),
   (C3_failure_reason_amended dDotFailedEmpty).2.1 (Or.inl rfl) "" rfl⟩

/-! ### Claim C9 -/

/-- C9: on a path that does not exist (or is not a directory) every marker
probe finds nothing, so `detect_status` returns the `Recorded` default
rather than an error or a `Failed` value. -/
theorem C9_missing_path_recorded (d : RecordingDir) (h : dirAbsent d) :
    check_for_errors d = none ∧ has_uploads d = false ∧
    has_rendered_video d = false ∧ has_render_setup d = false ∧
    has_analysis_files d = false ∧ has_extracted_files d = false ∧
    detect_status d = RecordingStatus.Recorded := by
  obtain ⟨h1, h2, h3, h4, h5, h6, h7, h8⟩ := h
  simp [check_for_errors, detect_status, has_uploads, has_rendered_video,
    has_render_setup, has_analysis_files, has_extracted_files,
    h1, h2, h3, h4, h5, h6, h7, h8, DirNode.absent]

/-- Witness for C9 at a fully absent directory. -/
theorem C9_witness : detect_status emptyDir = RecordingStatus.Recorded :=
  (C9_missing_path_recorded emptyDir
    ⟨rfl, rfl, rfl, rfl, rfl, rfl, rfl, rfl⟩).2.2.2.2.2.2

/-! ### Claim C4 -/

/-- C4: retry resolution for a `Failed` recording probes the directory in
order — `blender/render/`, then `blender/`, then `analysis/`, then
`extracted/` — first match wins, resolving to `Render`, `SetupRender`,
`SetupRender`, `Analyze` respectively, and fails with the
cannot-determine-retry-step error when none is present; in particular a
directory with both `analysis/` and `blender/render/` resolves to
`Render`. -/
theorem C4_retry_resolution (r : Recording) (e : String)
    (hst : r.status = RecordingStatus.Failed e) :
    (r.path.render.present = true →
      run_specific_step r "retry" = Except.ok NextStep.Render) ∧
    (r.path.render.present = false → r.path.blender.present = true →
      run_specific_step r "retry" = Except.ok NextStep.SetupRender) ∧
    (r.path.render.present = false → r.path.blender.present = false →
      r.path.analysis.present = true →
      run_specific_step r "retry" = Except.ok NextStep.SetupRender) ∧
    (r.path.render.present = false → r.path.blender.present = false →
      r.path.analysis.present = false → r.path.extracted.present = true →
      run_specific_step r "retry" = Except.ok NextStep.Analyze) ∧
    (r.path.render.present = false → r.path.blender.present = false →
      r.path.analysis.present = false → r.path.extracted.present = false →
      run_specific_step r "retry" =
        Except.error StepError.cannotDetermineRetry) ∧
    (r.path.analysis.present = true → r.path.render.present = true →
      run_specific_step r "retry" = Except.ok NextStep.Render) := by
  rcases r with ⟨n, p, st⟩
  subst hst
  rw [run_specific_step_retry_failed]
  refine ⟨fun h1 => ?_, fun h1 h2 => ?_, fun h1 h2 h3 => ?_,
    fun h1 h2 h3 h4 => ?_, fun h1 h2 h3 h4 => ?_, fun h3 h1 => ?_⟩ <;>
    simp_all [determine_retry_step]

/-- Witness for C4 at a failed recording whose directory has both
`analysis/` and `blender/render/`. -/
theorem C4_witness :
    run_specific_step recFailed "retry" = Except.ok NextStep.Render :=
  (C4_retry_resolution recFailed "boom" rfl).2.2.2.2.2 rfl rfl

/-! ### Claim C5 -/

/-- C5 counterexample: a `SetupRendered` recording is not `Uploaded`, yet
`get_recordings_needing_attention` drops it. -/
theorem C5_counterexample :
    recSetup.status ≠ RecordingStatus.Uploaded ∧
    get_recordings_needing_attention [recSetup] = [] := by decide

/-- C5 amended: `get_recordings_needing_attention` returns exactly the
recordings whose status is `Failed`, `Recorded`, `Extracted`, `Analyzed` or
`Rendered` — i.e. everything except `Uploaded` AND except `SetupRendered`,
which the filter also drops. -/
theorem C5_needing_attention_amended (rs : List Recording) (r : Recording) :
    r ∈ get_recordings_needing_attention rs ↔
      r ∈ rs ∧ r.status ≠ RecordingStatus.Uploaded ∧
        r.status ≠ RecordingStatus.SetupRendered := by
  rcases r with ⟨n, p, st⟩
  cases st <;> simp [get_recordings_needing_attention, List.mem_filter]

/-- Witness for C5's amended claim: a failed recording in a two-element
list is kept. -/
theorem C5_amended_witness :
    recFailed ∈ get_recordings_needing_attention [recFailed, recSetup] :=
  (C5_needing_attention_amended [recFailed, recSetup] recFailed).mpr
    ⟨by decide, by decide, by decide⟩

/-! ### Claim C6 -/

/-- C6 counterexample: the label `"setuprendered"` is not a recognized
filter arm — it passes a `Recorded` recording through instead of selecting
the `SetupRendered` discriminant. -/
theorem C6_counterexample :
    recRecorded.status ≠ RecordingStatus.SetupRendered ∧
    filter_by_status [recRecorded] "setuprendered" = [recRecorded] :=
  by decide

/-- C6 amended: `filter_by_status` matches the label case-insensitively
against six of the seven discriminants (`recorded`, `extracted`,
`analyzed`, `rendered`, `uploaded`, `failed` — the last matching any
`Failed(_)`); `SetupRendered` has no arm, so its name — like every other
unrecognized label — passes the whole input through unfiltered. -/
theorem C6_filter_by_status_amended (rs : List Recording) (label : String)
    (r : Recording) :
    (rustToLower label = "recorded" →
      (r ∈ filter_by_status rs label ↔
        r ∈ rs ∧ r.status = RecordingStatus.Recorded)) ∧
    (rustToLower label = "extracted" →
      (r ∈ filter_by_status rs label ↔
        r ∈ rs ∧ r.status = RecordingStatus.Extracted)) ∧
    (rustToLower label = "analyzed" →
      (r ∈ filter_by_status rs label ↔
        r ∈ rs ∧ r.status = RecordingStatus.Analyzed)) ∧
    (rustToLower label = "rendered" →
      (r ∈ filter_by_status rs label ↔
        r ∈ rs ∧ r.status = RecordingStatus.Rendered)) ∧
    (rustToLower label = "uploaded" →
      (r ∈ filter_by_status rs label ↔
        r ∈ rs ∧ r.status = RecordingStatus.Uploaded)) ∧
    (rustToLower label = "failed" →
      (r ∈ filter_by_status rs label ↔
        r ∈ rs ∧ ∃ e, r.status = RecordingStatus.Failed e)) ∧
    (rustToLower label ≠ "recorded" → rustToLower label ≠ "extracted" →
      rustToLower label ≠ "analyzed" → rustToLower label ≠ "rendered" →
      rustToLower label ≠ "uploaded" → rustToLower label ≠ "failed" →
      filter_by_status rs label = rs) := by
  refine ⟨fun h => ?_, fun h => ?_, fun h => ?_, fun h => ?_, fun h => ?_,
    fun h => ?_, fun h1 h2 h3 h4 h5 h6 => ?_⟩
  · rcases r with ⟨n, p, st⟩
    cases st <;>
      simp [filter_by_status, filterStatusPred, List.mem_filter, h]
  · rcases r with ⟨n, p, st⟩
    cases st <;>
      simp [filter_by_status, filterStatusPred, List.mem_filter, h]
  · rcases r with ⟨n, p, st⟩
    cases st <;>
      simp [filter_by_status, filterStatusPred, List.mem_filter, h]
  · rcases r with ⟨n, p, st⟩
    cases st <;>
      simp [filter_by_status, filterStatusPred, List.mem_filter, h]
  · rcases r with ⟨n, p, st⟩
    cases st <;>
      simp [filter_by_status, filterStatusPred, List.mem_filter, h]
  · rcases r with ⟨n, p, st⟩
    cases st <;>
      simp [filter_by_status, filterStatusPred, List.mem_filter, h,
        statusIsFailed]
  · simp [filter_by_status, filterStatusPred, h1, h2, h3, h4, h5, h6]

/-- Witness for C6's amended claim: the mixed-case label `"Failed"` selects
exactly the failed recording from a two-element list. -/
theorem C6_amended_witness :
    recFailed ∈ filter_by_status [recFailed, recRecorded] "Failed" ↔
      recFailed ∈ [recFailed, recRecorded] ∧
        ∃ e, recFailed.status = RecordingStatus.Failed e :=
  (C6_filter_by_status_amended [recFailed, recRecorded] "Failed"
    recFailed).2.2.2.2.2.1 (by decide)

/-! ### Claim C7 -/

/-- C7: `can_run_step` accepts a step exactly when the status equals the
step's prerequisite (`extract`/`Recorded`, `analyze`/`Extracted`,
`setup_render`/`Analyzed`, `render`/`SetupRendered`, `upload`/`Rendered`,
`retry`/`Failed`) or the status is `Failed(_)`. -/
theorem C7_can_run_step_table (r : Recording) :
    (can_run_step r "extract" = true ↔
      r.status = RecordingStatus.Recorded ∨
        ∃ e, r.status = RecordingStatus.Failed e) ∧
    (can_run_step r "analyze" = true ↔
      r.status = RecordingStatus.Extracted ∨
        ∃ e, r.status = RecordingStatus.Failed e) ∧
    (can_run_step r "setup_render" = true ↔
      r.status = RecordingStatus.Analyzed ∨
        ∃ e, r.status = RecordingStatus.Failed e) ∧
    (can_run_step r "render" = true ↔
      r.status = RecordingStatus.SetupRendered ∨
        ∃ e, r.status = RecordingStatus.Failed e) ∧
    (can_run_step r "upload" = true ↔
      r.status = RecordingStatus.Rendered ∨
        ∃ e, r.status = RecordingStatus.Failed e) ∧
    (can_run_step r "retry" = true ↔
      ∃ e, r.status = RecordingStatus.Failed e) := by
  rcases r with ⟨n, p, st⟩
  cases st <;>
    simp [can_run_step_extract, can_run_step_analyze,
      can_run_step_setup_render, can_run_step_render, can_run_step_upload,
      can_run_step_retry, statusIsRecordedOrFailed,
      statusIsExtractedOrFailed, statusIsAnalyzedOrFailed,
      statusIsSetupRenderedOrFailed, statusIsRenderedOrFailed,
      statusIsFailed]

/-! ### Claim C8 -/

/-- C8: the SetupRender saga is ordered and failure-atomic: blend-setup is
attempted exactly when config generation succeeded and the generated file
exists; a failed generation result is returned unchanged with no second
call; a successful generation with the file absent yields a failure naming
the missing file with no second call; and a spawn failure of the first call
propagates with no second call. -/
theorem C8_cinemon_saga (env : CinemonCalls) (rp preset : String) :
    (cinemon_blend_setup_attempted env = true ↔
      ∃ res, env.generate = Except.ok res ∧ res.success = true ∧
        env.configOnDisk = true) ∧
    (∀ res, env.generate = Except.ok res → res.success = false →
      run_cinemon_render env rp preset = Except.ok res ∧
        cinemon_blend_setup_attempted env = false) ∧
    (∀ res, env.generate = Except.ok res → res.success = true →
      env.configOnDisk = false →
      run_cinemon_render env rp preset = Except.ok
        { success := false, stdout := "",
          stderr := "Generated config file not found: " ++
            (rp ++ "/" ++ ("animation_config_" ++ preset ++ ".yaml")),
          exit_code := some 1 } ∧
        cinemon_blend_setup_attempted env = false) ∧
    (∀ res, env.generate = Except.ok res → res.success = true →
      env.configOnDisk = true →
      run_cinemon_render env rp preset = env.blendSetup) ∧
    (∀ e, env.generate = Except.error e →
      run_cinemon_render env rp preset = Except.error e ∧
        cinemon_blend_setup_attempted env = false) := by
  rcases env with ⟨gen, disk, setup⟩
  refine ⟨?_, fun res hres hsucc => ?_, fun res hres hsucc hdisk => ?_,
    fun res hres hsucc hdisk => ?_, fun e he => ?_⟩ <;>
    cases gen <;>
      simp_all [run_cinemon_render, cinemon_blend_setup_attempted]

/-- Witness for C8 where the config-generation call reports failure. -/
theorem C8_witness :
    run_cinemon_render envGenFail "/rec" "beat-switch" =
      Except.ok genFailResult ∧
    cinemon_blend_setup_attempted envGenFail = false :=
  (C8_cinemon_saga envGenFail "/rec" "beat-switch").2.1 genFailResult rfl rfl

/-! ### Claim C10 -/

/-- C10 counterexample: for an `Extracted` recording the request
`"extract"` fails at the `can_run_step` validation, not with the
`"Unknown step"` error the claim asserts for every recording. -/
theorem C10_counterexample :
    run_specific_step recExtracted "extract" =
      Except.error (StepError.cannotRun "extract") ∧
    run_specific_step recExtracted "extract" ≠
      Except.error (StepError.unknownStep "extract") := by decide

/-- C10 amended: a recording whose status passes validation for
`"extract"` (`Recorded` or `Failed`) gets the `"Unknown step"` error — the
dispatch has no `extract` arm; every other recording fails validation
instead; no request ever resolves to the `Extract` step through
`run_specific_step`, and `get_next_step` hands out `Extract` exactly for
`Recorded` recordings, so the `Extract` branch of step execution is
reachable only via `run_next_step` on a `Recorded` recording. -/
theorem C10_extract_unreachable_amended :
    (∀ r : Recording,
      (r.status = RecordingStatus.Recorded ∨
        ∃ e, r.status = RecordingStatus.Failed e) →
      run_specific_step r "extract" =
        Except.error (StepError.unknownStep "extract")) ∧
    (∀ r : Recording, r.status ≠ RecordingStatus.Recorded →
      (∀ e, r.status ≠ RecordingStatus.Failed e) →
      run_specific_step r "extract" =
        Except.error (StepError.cannotRun "extract")) ∧
    (∀ r : Recording, ∃ err,
      run_specific_step r "extract" = Except.error err) ∧
    (∀ (r : Recording) (s : String),
      run_specific_step r s ≠ Except.ok NextStep.Extract) ∧
    (∀ r : Recording,
      get_next_step r = some NextStep.Extract ↔
        r.status = RecordingStatus.Recorded) := by
  refine ⟨?_, ?_, ?_, ?_, ?_⟩
  · rintro ⟨n, p, st⟩ (h | ⟨e, h⟩) <;> subst h <;> rfl
  · rintro ⟨n, p, st⟩ h1 h2
    cases st
    · exact absurd rfl h1
    · rfl
    · rfl
    · rfl
    · rfl
    · rfl
    · exact absurd rfl (h2 _)
  · rintro ⟨n, p, st⟩
    cases st <;> exact ⟨_, rfl⟩
  · exact run_specific_step_ne_ok_extract
  · rintro ⟨n, p, st⟩
    cases st <;> simp [get_next_step]

/-- Witness for C10's amended claim: a failed recording gets the
`"Unknown step"` error, a `SetupRendered` recording the validation
error. -/
theorem C10_amended_witness :
    run_specific_step recFailed "extract" =
      Except.error (StepError.unknownStep "extract") ∧
    run_specific_step recSetup "extract" =
      Except.error (StepError.cannotRun "extract") :=
  ⟨C10_extract_unreachable_amended.1 recFailed (Or.inr ⟨"boom", rfl⟩),
   C10_extract_unreachable_amended.2.1 recSetup
     (fun h => RecordingStatus.noConfusion h)
     (fun _e h => RecordingStatus.noConfusion h)⟩

end Fermata
